import Mathlib

/-!
Verification of the pixelart-controller front end: a shallow embedding of the
device-session logic (src/src/context/AppContext.tsx, src/src/App.tsx,
src/src/services/api.ts, src/src/components) together with proofs and
refutations of the specified properties of the session store, the command
dispatch paths, the discovery flow and the WebSocket reconnect logic.
-/

/- ## Data model (src/src/types/led-panel.ts) -/

/-- Device: a discovered BLE peripheral (types/led-panel.ts). -/
structure Device where
  name : String
  address : String
  rssi : Option Int
  deriving DecidableEq, Repr

/-- DeviceStatus: `{ connected: boolean; device_address?: string }`. -/
structure DeviceStatus where
  connected : Bool
  device_address : Option String
  deriving DecidableEq, Repr

/-- DeviceInfo: the capability descriptor returned by `/panel/device-info`. -/
structure DeviceInfo where
  width : Nat
  height : Nat
  device_type : Nat
  led_type : Nat
  has_wifi : Bool
  deriving DecidableEq, Repr

/-- TextRequest as built by App.tsx `handleSendText` (optional fields kept). -/
structure TextRequest where
  text : String
  color : Option String
  font : Option String
  animation : Option Int
  speed : Option Int
  rainbow_mode : Option Int
  char_height : Option Int
  deriving DecidableEq, Repr

/-- BrightnessRequest: `{ brightness: number }`. -/
structure BrightnessRequest where
  brightness : Int
  deriving DecidableEq, Repr

/-- OrientationRequest: `{ orientation: number }`. -/
structure OrientationRequest where
  orientation : Int
  deriving DecidableEq, Repr

/-- PixelData: `{ x, y, color }` with color as a hex string without `#`. -/
structure PixelData where
  x : Int
  y : Int
  color : String
  deriving DecidableEq, Repr

/-- ClockSettings: `{ style, format_24, show_date }`. -/
structure ClockSettings where
  style : Int
  format_24 : Bool
  show_date : Bool
  deriving DecidableEq, Repr

/-- PowerRequest: `{ on: boolean }`; the field is called `powerOn` here because
`on` is reserved in Lean. -/
structure PowerRequest where
  powerOn : Bool
  deriving DecidableEq, Repr

/-- WebSocketMessage: the push-channel status frame `{ type, connected, device_address? }`. -/
structure WebSocketMessage where
  type : String
  connected : Bool
  device_address : Option String
  deriving DecidableEq, Repr

/-- PanelMode: `'clock' | 'rhythm' | 'diy'`. -/
inductive PanelMode where
  | clock
  | rhythm
  | diy
  deriving DecidableEq, Repr

/-- ApiCall: one HTTP request issued by a method of LEDPanelAPI
(src/src/services/api.ts); used to record exactly which network requests a
UI handler performs. -/
inductive ApiCall where
  | scan
  | connectDevice (address : String)
  | disconnectDevice
  | getStatus
  | getDeviceInfo
  | sendText (r : TextRequest)
  | sendImage (file : String)
  | setMode (m : PanelMode)
  | setBrightness (r : BrightnessRequest)
  | setOrientation (r : OrientationRequest)
  | sendPixels (ps : List PixelData)
  | setClockMode (s : ClockSettings)
  | setPower (r : PowerRequest)
  deriving DecidableEq, Repr

/- ## The pixel grid (App.tsx): a JS object `Record<string, string>` mapping
"x,y" keys to hex color strings, with insertion-ordered distinct keys. -/

/-- Grid: association list modelling the JS object `pixelGrid`. -/
abbrev Grid := List (String × String)

/-- gridGet: property read `grid[key]` (undefined becomes `none`). -/
def gridGet : Grid → String → Option String
  | [], _ => none
  | e :: rest, k => if e.1 = k then some e.2 else gridGet rest k

/-- gridSet: property write `grid[key] = v`; overwrites in place, appends a new
key at the end (JS object insertion-order semantics). -/
def gridSet : Grid → String → String → Grid
  | [], k, v => [(k, v)]
  | e :: rest, k, v => if e.1 = k then (k, v) :: rest else e :: gridSet rest k v

/-- gridErase: `delete grid[key]`. -/
def gridErase : Grid → String → Grid
  | [], _ => []
  | e :: rest, k => if e.1 = k then gridErase rest k else e :: gridErase rest k

/-- mkKey: the template literal `` `${x},${y}` `` of App.tsx handlePixelClick. -/
def mkKey (x y : Nat) : String :=
  toString x ++ "," ++ toString y

/-- handlePixelClick (App.tsx lines 137-148): if the clicked cell already holds
the currently selected color the binding is deleted, otherwise it is set to
that color. -/
def handlePixelClick (pixelColor : String) (x y : Nat) (g : Grid) : Grid :=
  let key := mkKey x y
  if gridGet g key = some pixelColor then gridErase g key else gridSet g key pixelColor

theorem gridGet_gridSet_same (g : Grid) (k v : String) :
    gridGet (gridSet g k v) k = some v := by
  induction g with
  | nil => simp [gridSet, gridGet]
  | cons e rest ih =>
    by_cases h : e.1 = k
    · simp [gridSet, gridGet, h]
    · simp [gridSet, gridGet, h, ih]

theorem gridGet_gridSet_other (g : Grid) (k k' v : String) (h : k' ≠ k) :
    gridGet (gridSet g k v) k' = gridGet g k' := by
  induction g with
  | nil => simp [gridSet, gridGet, Ne.symm h]
  | cons e rest ih =>
    by_cases he : e.1 = k
    · subst he
      simp [gridSet, gridGet, Ne.symm h]
    · simp [gridSet, gridGet, he, ih]

theorem gridGet_gridErase_same (g : Grid) (k : String) :
    gridGet (gridErase g k) k = none := by
  induction g with
  | nil => simp [gridErase, gridGet]
  | cons e rest ih =>
    by_cases h : e.1 = k
    · simp [gridErase, h, ih]
    · simp [gridErase, gridGet, h, ih]

theorem gridGet_gridErase_other (g : Grid) (k k' : String) (h : k' ≠ k) :
    gridGet (gridErase g k) k' = gridGet g k' := by
  induction g with
  | nil => simp [gridErase]
  | cons e rest ih =>
    by_cases he : e.1 = k
    · subst he
      simp [gridErase, gridGet, Ne.symm h, ih]
    · simp [gridErase, gridGet, he, ih]

/-- C10: one handlePixelClick toggles exactly the clicked cell: the "x,y" key
is removed when it already holds the selected color and set to the selected
color otherwise; every other key is unchanged; and two successive clicks on a
cell whose color differs from the selected color leave that cell unset. -/
theorem C10_pixel_toggle (c : String) (x y : Nat) (g : Grid) :
    (gridGet (handlePixelClick c x y g) (mkKey x y) =
      if gridGet g (mkKey x y) = some c then none else some c)
    ∧ (∀ k, k ≠ mkKey x y → gridGet (handlePixelClick c x y g) k = gridGet g k)
    ∧ (gridGet g (mkKey x y) ≠ some c →
        gridGet (handlePixelClick c x y (handlePixelClick c x y g)) (mkKey x y) = none) := by
  refine ⟨?_, ?_, ?_⟩
  · by_cases h : gridGet g (mkKey x y) = some c
    · simp [handlePixelClick, h, gridGet_gridErase_same]
    · simp [handlePixelClick, h, gridGet_gridSet_same]
  · intro k hk
    by_cases h : gridGet g (mkKey x y) = some c
    · simp [handlePixelClick, h, gridGet_gridErase_other _ _ _ hk]
    · simp [handlePixelClick, h, gridGet_gridSet_other _ _ _ _ hk]
  · intro h
    have h1 : handlePixelClick c x y g = gridSet g (mkKey x y) c := by
      simp [handlePixelClick, h]
    have h2 : gridGet (gridSet g (mkKey x y) c) (mkKey x y) = some c :=
      gridGet_gridSet_same g _ c
    rw [h1]
    simp [handlePixelClick, h2, gridGet_gridErase_same]

/-- C10 witness: concrete evaluation of the toggle theorem on the grid
`[("1,2", "00FF00")]` with selected color "FF00FF". -/
theorem C10_pixel_toggle_witness :
    ("0,0" ≠ mkKey 1 2)
    ∧ (gridGet [("1,2", "00FF00")] (mkKey 1 2) ≠ some "FF00FF")
    ∧ gridGet (handlePixelClick "FF00FF" 1 2 [("1,2", "00FF00")]) "0,0" =
        gridGet [("1,2", "00FF00")] "0,0"
    ∧ gridGet (handlePixelClick "FF00FF" 1 2
        (handlePixelClick "FF00FF" 1 2 [("1,2", "00FF00")])) (mkKey 1 2) = none := by
  refine ⟨by decide, by decide, ?_, ?_⟩
  · exact (C10_pixel_toggle "FF00FF" 1 2 [("1,2", "00FF00")]).2.1 "0,0" (by decide)
  · exact (C10_pixel_toggle "FF00FF" 1 2 [("1,2", "00FF00")]).2.2 (by decide)

/- ## Session State Store (src/src/context/AppContext.tsx, the AppProvider) -/

/-- AppState: the provider state of AppContext.tsx — deviceInfo (capability
descriptor), connected flag, deviceAddress, scan results, scanning flag, and
the status record mirrored from the push channel. -/
structure AppState where
  deviceInfo : Option DeviceInfo
  connected : Bool
  deviceAddress : Option String
  devices : List Device
  scanning : Bool
  status : DeviceStatus
  deriving DecidableEq, Repr

/-- initialAppState: the useState initial values of AppProvider. -/
def initialAppState : AppState :=
  { deviceInfo := none, connected := false, deviceAddress := none,
    devices := [], scanning := false, status := ⟨false, none⟩ }

/-- applyRemoteStatus: the WebSocket status handler installed by AppProvider
(AppContext.tsx, the `api.connectWebSocket` callback): it replaces `status`
wholesale, sets `connected` from the frame, and sets `deviceAddress` only when
the frame carries an address (a frame without an address leaves the previously
stored address in place). -/
def applyRemoteStatus (msg : WebSocketMessage) (s : AppState) : AppState :=
  let s1 := { s with status := ⟨msg.connected, msg.device_address⟩, connected := msg.connected }
  match msg.device_address with
  | some a => { s1 with deviceAddress := some a }
  | none => s1

/-- ctxConnect: AppContext.tsx `connect(address)`. The oracle arguments give
the outcomes of the two awaited remote calls `api.connect` and
`api.getDeviceInfo`; on any failure the error is rethrown and no state is
mutated, on success deviceInfo, connected and deviceAddress are set. -/
def ctxConnect (address : String) (connectRes : Except String Unit)
    (infoRes : Except String DeviceInfo) (s : AppState) : AppState × Except String Unit :=
  match connectRes with
  | .error e => (s, .error e)
  | .ok _ =>
    match infoRes with
    | .error e => (s, .error e)
    | .ok info =>
      ({ s with deviceInfo := some info, connected := true, deviceAddress := some address },
        .ok ())

/-- ctxDisconnect: AppContext.tsx `disconnect()`. Local state is cleared only
when `api.disconnect` succeeds; a failure is rethrown with no mutation. -/
def ctxDisconnect (res : Except String Unit) (s : AppState) : AppState × Except String Unit :=
  match res with
  | .error e => (s, .error e)
  | .ok _ =>
    ({ s with connected := false, deviceAddress := none, deviceInfo := none }, .ok ())

/-- StoreEvent: one session-store mutation — a successful connect result,
a successful disconnect result, or a remote status frame from the push
channel. -/
inductive StoreEvent where
  | markConnected (address : String) (info : DeviceInfo)
  | markDisconnected
  | applyRemote (msg : WebSocketMessage)
  deriving DecidableEq, Repr

/-- storeStep: the state change each store mutation performs, taken from the
corresponding AppContext.tsx code path. -/
def storeStep (s : AppState) : StoreEvent → AppState
  | .markConnected a info => (ctxConnect a (.ok ()) (.ok info) s).1
  | .markDisconnected => (ctxDisconnect (.ok ()) s).1
  | .applyRemote msg => applyRemoteStatus msg s

/-- storeRun: apply a sequence of store mutations. -/
def storeRun (s : AppState) (evs : List StoreEvent) : AppState :=
  evs.foldl storeStep s

/-- eventWf: a remote frame is well formed when it carries an address whenever
it reports connected (this is what the backend's status frames satisfy). -/
def eventWf : StoreEvent → Prop
  | .applyRemote msg => msg.connected = true → msg.device_address ≠ none
  | _ => True

instance : DecidablePred eventWf := by
  intro e
  cases e with
  | markConnected a info => exact .isTrue trivial
  | markDisconnected => exact .isTrue trivial
  | applyRemote msg => exact inferInstanceAs (Decidable (_ → _))

/-- C2 counterexample: a remote frame reporting connected with an address
followed by a remote frame reporting disconnected (which carries no address)
leaves `connected = false` while `deviceAddress` still holds the old address,
because the WebSocket handler only writes deviceAddress when an address is
present; so the address-iff-connected invariant fails. -/
theorem C2_counterexample :
    (storeRun initialAppState
      [StoreEvent.applyRemote ⟨"status", true, some "AA:BB:CC"⟩,
       StoreEvent.applyRemote ⟨"status", false, none⟩]).connected = false
    ∧ (storeRun initialAppState
      [StoreEvent.applyRemote ⟨"status", true, some "AA:BB:CC"⟩,
       StoreEvent.applyRemote ⟨"status", false, none⟩]).deviceAddress = some "AA:BB:CC" := by
  decide

/-- connectedImpliesAddress: the direction of the invariant that does survive. -/
def connectedImpliesAddress (s : AppState) : Prop :=
  s.connected = true → s.deviceAddress ≠ none

theorem storeStep_preserves_connectedImpliesAddress (s : AppState) (e : StoreEvent)
    (hwf : eventWf e) (_hs : connectedImpliesAddress s) :
    connectedImpliesAddress (storeStep s e) := by
  cases e with
  | markConnected a info =>
    intro _
    simp [storeStep, ctxConnect]
  | markDisconnected =>
    intro h
    simp [storeStep, ctxDisconnect] at h
  | applyRemote msg =>
    intro h
    have hwf' : msg.connected = true → msg.device_address ≠ none := hwf
    cases hmsg : msg.device_address with
    | some a => simp [storeStep, applyRemoteStatus, hmsg]
    | none =>
      have hc : msg.connected = true := by
        simpa [storeStep, applyRemoteStatus, hmsg] using h
      exact absurd hmsg (hwf' hc)

/-- C2 amended: over every sequence of store mutations whose remote frames are
well formed (address present whenever connected is reported), the final state
satisfies connected = true → deviceAddress is set; the converse direction of
the claimed iff is refuted by `C2_counterexample`, since a disconnected frame
does not clear the stored address. -/
theorem storeRun_preserves_connectedImpliesAddress (evs : List StoreEvent) :
    ∀ s : AppState, (∀ e ∈ evs, eventWf e) → connectedImpliesAddress s →
      connectedImpliesAddress (storeRun s evs) := by
  induction evs with
  | nil =>
    intro s _ hs
    simpa [storeRun] using hs
  | cons e rest ih =>
    intro s hwf hs
    have h1 := storeStep_preserves_connectedImpliesAddress s e (hwf e (by simp)) hs
    have h2 := ih (storeStep s e) (fun x hx => hwf x (by simp [hx])) h1
    simpa [storeRun] using h2

theorem C2_invariant_amended (evs : List StoreEvent) (hwf : ∀ e ∈ evs, eventWf e)
    (hfinal : (storeRun initialAppState evs).connected = true) :
    (storeRun initialAppState evs).deviceAddress ≠ none := by
  have hinit : connectedImpliesAddress initialAppState := by
    intro h
    simp [initialAppState] at h
  exact storeRun_preserves_connectedImpliesAddress evs initialAppState hwf hinit hfinal

/-- C2 amended witness: the amended theorem applied to the concrete mutation
sequence connect("AA:BB:CC") followed by a well-formed connected frame. -/
theorem C2_invariant_amended_witness :
    (∀ e ∈ [StoreEvent.markConnected "AA:BB:CC" ⟨16, 16, 1, 2, false⟩,
            StoreEvent.applyRemote ⟨"status", true, some "AA:BB:CC"⟩], eventWf e)
    ∧ (storeRun initialAppState
        [StoreEvent.markConnected "AA:BB:CC" ⟨16, 16, 1, 2, false⟩,
         StoreEvent.applyRemote ⟨"status", true, some "AA:BB:CC"⟩]).connected = true
    ∧ (storeRun initialAppState
        [StoreEvent.markConnected "AA:BB:CC" ⟨16, 16, 1, 2, false⟩,
         StoreEvent.applyRemote ⟨"status", true, some "AA:BB:CC"⟩]).deviceAddress ≠ none :=
  ⟨by decide, by decide,
    C2_invariant_amended _ (by decide) (by decide)⟩

/- ## The App component (src/src/App.tsx): local state and event handlers.
Each handler is a function of the outcomes of the remote calls it awaits (the
oracle arguments) and the current component state; it returns the new state,
the list of network requests it issued, in order, and what it reported. -/

/-- AppTsxState: the useState fields of App.tsx that the handlers read or
write. -/
structure AppTsxState where
  status : DeviceStatus
  deviceInfo : Option DeviceInfo
  devices : List Device
  scanning : Bool
  text : String
  textColor : String
  font : String
  animation : Int
  speed : Int
  rainbowMode : Int
  charHeight : Option Int
  clockStyle : Int
  format24 : Bool
  showDate : Bool
  brightness : Int
  orientation : Int
  isPowered : Bool
  pixelColor : String
  pixelGrid : Grid
  imagePreview : Option String
  deriving DecidableEq, Repr

/-- initialAppTsxState: the useState initial values of App.tsx. -/
def initialAppTsxState : AppTsxState :=
  { status := ⟨false, none⟩, deviceInfo := none, devices := [], scanning := false,
    text := "Hello!", textColor := "FF00FF", font := "CUSONG", animation := 0,
    speed := 80, rainbowMode := 0, charHeight := some 16, clockStyle := 1,
    format24 := true, showDate := true, brightness := 50, orientation := 0,
    isPowered := true, pixelColor := "#FF00FF", pixelGrid := [],
    imagePreview := none }

/-- Outcome: how a UI handler ended — `noop` for an early return with nothing
to do, `notConnected` for the early return taken when `status.connected` is
false, `invalidCommand` for the local "No pixels to send" rejection, `ok` for
success, and `remoteError` for a caught failure of a remote call. -/
inductive Outcome where
  | noop
  | notConnected
  | invalidCommand
  | ok
  | remoteError (e : String)
  deriving DecidableEq, Repr

/-- HandlerResult: new component state, network requests issued in order, and
the reported outcome. -/
structure HandlerResult where
  state : AppTsxState
  calls : List ApiCall
  outcome : Outcome
  deriving DecidableEq, Repr

/-- handleConnect (App.tsx lines 65-80): awaits `api.connect`, then
`api.getStatus` (committing the returned status to state), and only then — if
that status reports connected — `api.getDeviceInfo`; any thrown error is
caught and surfaced, with no rollback of already-committed state. -/
def handleConnect (address : String) (connectRes : Except String Unit)
    (statusRes : Except String DeviceStatus) (infoRes : Except String DeviceInfo)
    (s : AppTsxState) : HandlerResult :=
  match connectRes with
  | .error e => ⟨s, [ApiCall.connectDevice address], .remoteError e⟩
  | .ok _ =>
    match statusRes with
    | .error e => ⟨s, [ApiCall.connectDevice address, ApiCall.getStatus], .remoteError e⟩
    | .ok newStatus =>
      let s1 := { s with status := newStatus }
      if newStatus.connected then
        match infoRes with
        | .error e =>
          ⟨s1, [ApiCall.connectDevice address, ApiCall.getStatus, ApiCall.getDeviceInfo],
            .remoteError e⟩
        | .ok info =>
          ⟨{ s1 with deviceInfo := some info },
            [ApiCall.connectDevice address, ApiCall.getStatus, ApiCall.getDeviceInfo], .ok⟩
      else ⟨s1, [ApiCall.connectDevice address, ApiCall.getStatus], .ok⟩

/-- handleDisconnect (App.tsx lines 82-93): awaits `api.disconnect` then
`api.getStatus`; on success commits the returned status and clears deviceInfo;
a thrown error is caught and surfaced with no state change. -/
def handleDisconnect (disRes : Except String Unit)
    (statusRes : Except String DeviceStatus) (s : AppTsxState) : HandlerResult :=
  match disRes with
  | .error e => ⟨s, [ApiCall.disconnectDevice], .remoteError e⟩
  | .ok _ =>
    match statusRes with
    | .error e => ⟨s, [ApiCall.disconnectDevice, ApiCall.getStatus], .remoteError e⟩
    | .ok st =>
      ⟨{ s with status := st, deviceInfo := none },
        [ApiCall.disconnectDevice, ApiCall.getStatus], .ok⟩

/-- C3 counterexample: in App.tsx handleConnect, when `api.connect` succeeds,
`api.getStatus` reports connected, and the capability fetch
(`api.getDeviceInfo`) then fails, the component ends with
`status.connected = true` and no capabilities — a half-populated state, not the
claimed rollback to disconnected. -/
theorem C3_counterexample :
    (handleConnect "AA:BB:CC" (.ok ()) (.ok ⟨true, some "AA:BB:CC"⟩)
      (.error "device info fetch failed") initialAppTsxState).state.status.connected = true
    ∧ (handleConnect "AA:BB:CC" (.ok ()) (.ok ⟨true, some "AA:BB:CC"⟩)
      (.error "device info fetch failed") initialAppTsxState).state.deviceInfo = none := by
  decide

/-- C3 amended: in the AppContext connect, a capability-fetch failure after a
successful connect leaves the store exactly as it was (so a disconnected store
stays disconnected with no capabilities: all-or-nothing holds there); in the
App.tsx handleConnect, the status returned by getStatus is committed before
the capability fetch, so when that status reports connected and the capability
fetch fails, the component is left marked connected with its previous (absent)
capabilities — there is no rollback on that path. -/
theorem C3_rollback_amended (address e : String) (s : AppState)
    (st : DeviceStatus) (t : AppTsxState) (hst : st.connected = true) :
    ctxConnect address (.ok ()) (.error e) s = (s, .error e)
    ∧ (handleConnect address (.ok ()) (.ok st) (.error e) t).state.status.connected = true
    ∧ (handleConnect address (.ok ()) (.ok st) (.error e) t).state.deviceInfo = t.deviceInfo := by
  refine ⟨rfl, ?_, ?_⟩ <;> simp [handleConnect, hst]

/-- C3 amended witness: the amended theorem evaluated at a concrete connected
status and the initial component state. -/
theorem C3_rollback_amended_witness :
    (DeviceStatus.mk true (some "AA:BB:CC")).connected = true
    ∧ ctxConnect "AA:BB:CC" (.ok ()) (.error "boom") initialAppState =
        (initialAppState, .error "boom")
    ∧ (handleConnect "AA:BB:CC" (.ok ()) (.ok ⟨true, some "AA:BB:CC"⟩) (.error "boom")
        initialAppTsxState).state.status.connected = true :=
  ⟨by decide,
    (C3_rollback_amended "AA:BB:CC" "boom" initialAppState ⟨true, some "AA:BB:CC"⟩
      initialAppTsxState (by decide)).1,
    (C3_rollback_amended "AA:BB:CC" "boom" initialAppState ⟨true, some "AA:BB:CC"⟩
      initialAppTsxState (by decide)).2.1⟩

/-- connectedCtxState: the AppContext store right after a successful
connect("AA:BB:CC") with capabilities fetched. -/
def connectedCtxState : AppState :=
  (ctxConnect "AA:BB:CC" (.ok ()) (.ok ⟨16, 16, 1, 2, false⟩) initialAppState).1

/-- C4 counterexample: when the remote disconnect call fails, the AppContext
disconnect rethrows and clears nothing: the store is still connected with its
address and capabilities — the claimed always-clear-locally behavior does not
happen. -/
theorem C4_counterexample :
    (ctxDisconnect (.error "remote disconnect failed") connectedCtxState).1.connected = true
    ∧ (ctxDisconnect (.error "remote disconnect failed") connectedCtxState).1.deviceAddress =
        some "AA:BB:CC"
    ∧ (ctxDisconnect (.error "remote disconnect failed") connectedCtxState).1.deviceInfo =
        some ⟨16, 16, 1, 2, false⟩ := by
  decide

/-- C4 amended: local session state transitions to disconnected only when the
remote disconnect succeeds (connected false, address and capabilities
cleared); when the remote disconnect fails, the failure is surfaced and the
local state is left completely unchanged, in both the AppContext disconnect
and the App.tsx handleDisconnect. -/
theorem C4_disconnect_amended (e : String) (s : AppState)
    (r : Except String DeviceStatus) (t : AppTsxState) :
    (ctxDisconnect (.ok ()) s).1.connected = false
    ∧ (ctxDisconnect (.ok ()) s).1.deviceAddress = none
    ∧ (ctxDisconnect (.ok ()) s).1.deviceInfo = none
    ∧ ctxDisconnect (.error e) s = (s, .error e)
    ∧ handleDisconnect (.error e) r t = ⟨t, [ApiCall.disconnectDevice], .remoteError e⟩ := by
  exact ⟨rfl, rfl, rfl, rfl, rfl⟩

/- ## Command handlers of App.tsx (one per command family) -/

/-- handleSendText (App.tsx lines 95-115): early return with an error toast
when not connected; otherwise posts the text request built from component
state and reports the remote outcome. No local validation of the text. -/
def handleSendText (sendRes : Except String Unit) (s : AppTsxState) : HandlerResult :=
  if !s.status.connected then ⟨s, [], .notConnected⟩
  else
    let req : TextRequest :=
      ⟨s.text, some s.textColor, some s.font, some s.animation, some s.speed,
        some s.rainbowMode, s.charHeight⟩
    match sendRes with
    | .ok _ => ⟨s, [ApiCall.sendText req], .ok⟩
    | .error e => ⟨s, [ApiCall.sendText req], .remoteError e⟩

/-- handleImageUpload (App.tsx lines 117-135): returns when no file was chosen;
otherwise stores the preview URL first, then early-returns when not connected,
else uploads the file. -/
def handleImageUpload (file : Option String) (sendRes : Except String Unit)
    (s : AppTsxState) : HandlerResult :=
  match file with
  | none => ⟨s, [], .noop⟩
  | some f =>
    let s1 := { s with imagePreview := some f }
    if !s1.status.connected then ⟨s1, [], .notConnected⟩
    else
      match sendRes with
      | .ok _ => ⟨s1, [ApiCall.sendImage f], .ok⟩
      | .error e => ⟨s1, [ApiCall.sendImage f], .remoteError e⟩

/-- parseKey: `coords.split(',').map(Number)` on a "x,y" key produced by
mkKey; a malformed component is read as 0. -/
def parseKey (coords : String) : Int × Int :=
  match (coords.splitOn ",").map (fun t => t.toInt?) with
  | [some a, some b] => (a, b)
  | _ => (0, 0)

/-- replaceFirst: JS `String.prototype.replace` with a string pattern removes
only the first occurrence. -/
def replaceFirst (s pat : String) : String :=
  match s.splitOn pat with
  | [] => s
  | [t] => t
  | t :: rest => t ++ String.intercalate pat rest

/-- pixelsOf: the `Object.entries(pixelGrid).map(...)` conversion in
handleSendPixels — split each key into coordinates and strip the leading
"#" from the color. -/
def pixelsOf (g : Grid) : List PixelData :=
  g.map (fun e => ⟨(parseKey e.1).1, (parseKey e.1).2, replaceFirst e.2 "#"⟩)

/-- handleSendPixels (App.tsx lines 150-180): early return when not connected;
local rejection ("No pixels to send") when the grid is empty; otherwise posts
`setMode diy` followed by the pixel batch, stopping after a mode failure. -/
def handleSendPixels (modeRes : Except String Unit) (pixelsRes : Except String Unit)
    (s : AppTsxState) : HandlerResult :=
  if !s.status.connected then ⟨s, [], .notConnected⟩
  else if s.pixelGrid.isEmpty then ⟨s, [], .invalidCommand⟩
  else
    match modeRes with
    | .error e => ⟨s, [ApiCall.setMode .diy], .remoteError e⟩
    | .ok _ =>
      match pixelsRes with
      | .error e =>
        ⟨s, [ApiCall.setMode .diy, ApiCall.sendPixels (pixelsOf s.pixelGrid)], .remoteError e⟩
      | .ok _ =>
        ⟨s, [ApiCall.setMode .diy, ApiCall.sendPixels (pixelsOf s.pixelGrid)], .ok⟩

/-- handleSetClockMode (App.tsx lines 182-194): early return when not
connected; otherwise posts the clock settings built from component state. -/
def handleSetClockMode (res : Except String Unit) (s : AppTsxState) : HandlerResult :=
  if !s.status.connected then ⟨s, [], .notConnected⟩
  else
    match res with
    | .ok _ => ⟨s, [ApiCall.setClockMode ⟨s.clockStyle, s.format24, s.showDate⟩], .ok⟩
    | .error e => ⟨s, [ApiCall.setClockMode ⟨s.clockStyle, s.format24, s.showDate⟩], .remoteError e⟩

/-- handleSetBrightness (App.tsx lines 196-204): commits the slider value to
local state first, then returns silently when not connected (no toast — the
early `return` after `if (!status.connected)` is still the not-connected
outcome), else posts the brightness with no range check. -/
def handleSetBrightness (value : Int) (res : Except String Unit)
    (s : AppTsxState) : HandlerResult :=
  let s1 := { s with brightness := value }
  if !s1.status.connected then ⟨s1, [], .notConnected⟩
  else
    match res with
    | .ok _ => ⟨s1, [ApiCall.setBrightness ⟨value⟩], .ok⟩
    | .error e => ⟨s1, [ApiCall.setBrightness ⟨value⟩], .remoteError e⟩

/-- handleSetOrientation (App.tsx lines 206-216): commits the selected value to
local state first, returns silently when not connected, else posts the
orientation with no membership check. -/
def handleSetOrientation (value : Int) (res : Except String Unit)
    (s : AppTsxState) : HandlerResult :=
  let s1 := { s with orientation := value }
  if !s1.status.connected then ⟨s1, [], .notConnected⟩
  else
    match res with
    | .ok _ => ⟨s1, [ApiCall.setOrientation ⟨value⟩], .ok⟩
    | .error e => ⟨s1, [ApiCall.setOrientation ⟨value⟩], .remoteError e⟩

/-- handleTogglePower (App.tsx lines 218-231): early return with an error toast
when not connected; otherwise posts the inverted power flag and commits the
flip only on success. -/
def handleTogglePower (res : Except String Unit) (s : AppTsxState) : HandlerResult :=
  if !s.status.connected then ⟨s, [], .notConnected⟩
  else
    match res with
    | .ok _ => ⟨{ s with isPowered := !s.isPowered }, [ApiCall.setPower ⟨!s.isPowered⟩], .ok⟩
    | .error e => ⟨s, [ApiCall.setPower ⟨!s.isPowered⟩], .remoteError e⟩

/-- settingsPowerToggle (SettingsCard.tsx lines 37-53): the cards-UI power
handler; it reads the shared status but never writes it, flips the local
isPowered flag optimistically and reverts it when the remote call fails. -/
def settingsPowerToggle (res : Except String Unit) (st : DeviceStatus)
    (isPowered : Bool) : DeviceStatus × Bool × List ApiCall × Outcome :=
  if !st.connected then (st, isPowered, [], .notConnected)
  else
    match res with
    | .ok _ => (st, !isPowered, [ApiCall.setPower ⟨!isPowered⟩], .ok)
    | .error e => (st, isPowered, [ApiCall.setPower ⟨!isPowered⟩], .remoteError e)

/-- C1: for every command family (text, image, pixel batch, mode, brightness,
orientation, power), a submission made while the status is not connected ends
in the not-connected early return and issues no network request at all. -/
theorem C1_notConnected_blocks (s : AppTsxState) (h : s.status.connected = false)
    (r1 r2 : Except String Unit) (f : String) (v w : Int) :
    (handleSendText r1 s).calls = [] ∧ (handleSendText r1 s).outcome = .notConnected
    ∧ (handleImageUpload (some f) r1 s).calls = []
    ∧ (handleImageUpload (some f) r1 s).outcome = .notConnected
    ∧ (handleSendPixels r1 r2 s).calls = [] ∧ (handleSendPixels r1 r2 s).outcome = .notConnected
    ∧ (handleSetClockMode r1 s).calls = [] ∧ (handleSetClockMode r1 s).outcome = .notConnected
    ∧ (handleSetBrightness v r1 s).calls = []
    ∧ (handleSetBrightness v r1 s).outcome = .notConnected
    ∧ (handleSetOrientation w r1 s).calls = []
    ∧ (handleSetOrientation w r1 s).outcome = .notConnected
    ∧ (handleTogglePower r1 s).calls = [] ∧ (handleTogglePower r1 s).outcome = .notConnected := by
  refine ⟨?_, ?_, ?_, ?_, ?_, ?_, ?_, ?_, ?_, ?_, ?_, ?_, ?_, ?_⟩ <;>
    simp [handleSendText, handleImageUpload, handleSendPixels, handleSetClockMode,
      handleSetBrightness, handleSetOrientation, handleTogglePower, h]

/-- C1 witness: the blocking theorem evaluated in the initial (disconnected)
component state for each family. -/
theorem C1_notConnected_blocks_witness :
    initialAppTsxState.status.connected = false
    ∧ (handleSendText (.ok ()) initialAppTsxState).calls = []
    ∧ (handleSetBrightness 50 (.ok ()) initialAppTsxState).outcome = .notConnected
    ∧ (handleTogglePower (.ok ()) initialAppTsxState).calls = [] :=
  ⟨by decide,
    (C1_notConnected_blocks initialAppTsxState (by decide) (.ok ()) (.ok ()) "img.png" 50 0).1,
    (C1_notConnected_blocks initialAppTsxState (by decide) (.ok ()) (.ok ()) "img.png" 50 0).2.2.2.2.2.2.2.2.2.1,
    (C1_notConnected_blocks initialAppTsxState (by decide) (.ok ()) (.ok ()) "img.png" 50 0).2.2.2.2.2.2.2.2.2.2.2.2.1⟩

/-- connectedTsxState: the App.tsx component state with a connected status. -/
def connectedTsxState : AppTsxState :=
  { initialAppTsxState with status := ⟨true, some "AA:BB:CC"⟩ }

/-- C5 counterexample: a brightness submission of 101 while connected is
forwarded straight to the backend — the handler performs the network request
and reports success; there is no local [0,100] check and no InvalidCommand. -/
theorem C5_counterexample :
    (handleSetBrightness 101 (.ok ()) connectedTsxState).calls =
      [ApiCall.setBrightness ⟨101⟩]
    ∧ (handleSetBrightness 101 (.ok ()) connectedTsxState).outcome = .ok := by
  decide

/-- C5 amended: of the claimed local validations only the pixel-list
non-emptiness exists: an empty grid is rejected locally with no network call;
brightness (including -1 and 101), orientation (including values outside
0..3) and text (including the empty string) are forwarded to the backend
unvalidated whenever the status is connected. -/
theorem C5_validation_amended (s : AppTsxState) (h : s.status.connected = true)
    (hg : s.pixelGrid = []) (r r2 : Except String Unit) (v w : Int) :
    (handleSendPixels r r2 s).calls = []
    ∧ (handleSendPixels r r2 s).outcome = .invalidCommand
    ∧ (handleSetBrightness v r s).calls = [ApiCall.setBrightness ⟨v⟩]
    ∧ (handleSetOrientation w r s).calls = [ApiCall.setOrientation ⟨w⟩]
    ∧ (handleSendText r s).calls =
        [ApiCall.sendText ⟨s.text, some s.textColor, some s.font, some s.animation,
          some s.speed, some s.rainbowMode, s.charHeight⟩] := by
  refine ⟨?_, ?_, ?_, ?_, ?_⟩ <;>
    cases r <;>
      simp [handleSendPixels, handleSetBrightness, handleSetOrientation, handleSendText,
        h, hg]

/-- C5 amended witness: the amended theorem at a connected state with empty
text and empty grid, and the out-of-range values -1 and 101. -/
theorem C5_validation_amended_witness :
    ({ connectedTsxState with text := "" } : AppTsxState).status.connected = true
    ∧ ({ connectedTsxState with text := "" } : AppTsxState).pixelGrid = []
    ∧ (handleSendPixels (.ok ()) (.ok ()) { connectedTsxState with text := "" }).calls = []
    ∧ (handleSetBrightness (-1) (.ok ()) { connectedTsxState with text := "" }).calls =
        [ApiCall.setBrightness ⟨-1⟩]
    ∧ (handleSetBrightness 101 (.ok ()) { connectedTsxState with text := "" }).calls =
        [ApiCall.setBrightness ⟨101⟩] :=
  ⟨by decide, by decide,
    (C5_validation_amended _ (by decide) (by decide) (.ok ()) (.ok ()) (-1) 0).1,
    (C5_validation_amended _ (by decide) (by decide) (.ok ()) (.ok ()) (-1) 0).2.2.1,
    (C5_validation_amended _ (by decide) (by decide) (.ok ()) (.ok ()) 101 0).2.2.1⟩

/-- C8: no command path ever mutates the session identity: for every command
family, every remote outcome (success or failure) and every starting state,
the status record and the stored capabilities after the submission equal those
before it (failing submissions in particular leave them identical — only
connect, disconnect and push-channel frames write them); the cards-UI power
handler likewise returns the shared status unchanged. -/
theorem C8_commands_preserve_session (s : AppTsxState) (r r2 : Except String Unit)
    (f : String) (v w : Int) (st : DeviceStatus) (b : Bool) :
    ((handleSendText r s).state.status = s.status
      ∧ (handleSendText r s).state.deviceInfo = s.deviceInfo)
    ∧ ((handleImageUpload (some f) r s).state.status = s.status
      ∧ (handleImageUpload (some f) r s).state.deviceInfo = s.deviceInfo)
    ∧ (handleImageUpload none r s).state = s
    ∧ ((handleSendPixels r r2 s).state.status = s.status
      ∧ (handleSendPixels r r2 s).state.deviceInfo = s.deviceInfo)
    ∧ ((handleSetClockMode r s).state.status = s.status
      ∧ (handleSetClockMode r s).state.deviceInfo = s.deviceInfo)
    ∧ ((handleSetBrightness v r s).state.status = s.status
      ∧ (handleSetBrightness v r s).state.deviceInfo = s.deviceInfo)
    ∧ ((handleSetOrientation w r s).state.status = s.status
      ∧ (handleSetOrientation w r s).state.deviceInfo = s.deviceInfo)
    ∧ ((handleTogglePower r s).state.status = s.status
      ∧ (handleTogglePower r s).state.deviceInfo = s.deviceInfo)
    ∧ (settingsPowerToggle r st b).1 = st := by
  refine ⟨⟨?_, ?_⟩, ⟨?_, ?_⟩, ?_, ⟨?_, ?_⟩, ⟨?_, ?_⟩, ⟨?_, ?_⟩, ⟨?_, ?_⟩, ⟨?_, ?_⟩, ?_⟩ <;>
    cases r <;>
      simp [handleSendText, handleImageUpload, handleSendPixels, handleSetClockMode,
        handleSetBrightness, handleSetOrientation, handleTogglePower,
        settingsPowerToggle] <;>
    first
      | rfl
      | (split <;> rfl)
      | (split <;> (try split) <;> (try cases r2) <;> rfl)

/- ## Device discovery (AppContext.tsx scanDevices / App.tsx handleScan) -/

/-- ScanOutcome: how a scan attempt begins — `started` (request issued),
`alreadyScanning` (the rejection the specification expects for a concurrent
scan; the code never produces it), or `ignored` (the click hit a disabled
button and nothing ran). -/
inductive ScanOutcome where
  | started
  | alreadyScanning
  | ignored
  deriving DecidableEq, Repr

/-- scanStart: the synchronous prefix of scanDevices (AppContext.tsx lines
94-105) and of App.tsx handleScan: set scanning, issue the scan request. The
function body contains no in-progress guard, so it behaves identically
whether or not a scan is already in flight. -/
def scanStart (s : AppState) : AppState × List ApiCall × ScanOutcome :=
  ({ s with scanning := true }, [ApiCall.scan], .started)

/-- scanFinish: the continuation of scanDevices once the scan promise
settles: on success the device list is replaced wholesale by the result; on
failure it is left alone and the error rethrown; the finally clause clears
scanning in both cases. -/
def scanFinish (res : Except String (List Device)) (s : AppState) :
    AppState × Except String Unit :=
  match res with
  | .ok ds => ({ s with devices := ds, scanning := false }, .ok ())
  | .error e => ({ s with scanning := false }, .error e)

/-- clickScan: the scan button is rendered with `disabled={scanning}`
(App.tsx line 692, ConnectionCard.tsx), so a click while a scan is in flight
runs nothing at all. -/
def clickScan (s : AppState) : AppState × List ApiCall × ScanOutcome :=
  if s.scanning then (s, [], .ignored) else scanStart s

/-- C6 counterexample: invoking scanDevices while a scan is in flight does not
fail with ScanAlreadyInProgress — the function has no guard and simply issues
a second scan request; the button-click path does not produce the error
either, it is a silent no-op. -/
theorem C6_counterexample :
    (scanStart { initialAppState with scanning := true }).2.2 ≠ ScanOutcome.alreadyScanning
    ∧ (scanStart { initialAppState with scanning := true }).2.1 = [ApiCall.scan]
    ∧ (clickScan { initialAppState with scanning := true }).2.2 ≠ ScanOutcome.alreadyScanning
    ∧ (clickScan { initialAppState with scanning := true }).2.1 = [] := by
  decide

/-- C6 amended: concurrency is prevented only by disabling the affordance — a
click during a scan is a silent no-op (no request and no ScanAlreadyInProgress
error), while a direct scanDevices call is not rejected and issues a second
scan; on completion the coordinator returns to idle, a successful completion
replaces the device list exactly by the new result set (old entries dropped),
a failed completion keeps the previous list; a click while idle starts a scan
normally. -/
theorem C6_scan_amended (s : AppState) (ds : List Device) (e : String)
    (hs : s.scanning = true) :
    clickScan s = (s, [], .ignored)
    ∧ (scanStart s).2.2 ≠ ScanOutcome.alreadyScanning
    ∧ (scanFinish (.ok ds) s).1.scanning = false
    ∧ (scanFinish (.ok ds) s).1.devices = ds
    ∧ (scanFinish (.error e) s).1.scanning = false
    ∧ (scanFinish (.error e) s).1.devices = s.devices
    ∧ (∀ t : AppState, t.scanning = false → clickScan t = scanStart t) := by
  refine ⟨by simp [clickScan, hs], by simp [scanStart], rfl, rfl, rfl, rfl, ?_⟩
  intro t ht
  simp [clickScan, ht]

/-- scanningOldList: a scanning state still holding a device found by an
earlier scan. -/
def scanningOldList : AppState :=
  { initialAppState with
      scanning := true
      devices := [⟨"Panel-1", "11:22:33", some (-60)⟩] }

/-- C6 amended witness: the amended theorem on a scanning state that still
holds a device from an earlier scan, resolved by a scan that found a different
device. -/
theorem C6_scan_amended_witness :
    scanningOldList.scanning = true
    ∧ clickScan scanningOldList = (scanningOldList, [], .ignored)
    ∧ (scanFinish (.ok [⟨"Panel-2", "44:55:66", none⟩]) scanningOldList).1.devices =
      [⟨"Panel-2", "44:55:66", none⟩] :=
  ⟨by decide,
    (C6_scan_amended scanningOldList [⟨"Panel-2", "44:55:66", none⟩] "err" (by decide)).1,
    (C6_scan_amended scanningOldList [⟨"Panel-2", "44:55:66", none⟩] "err" (by decide)).2.2.2.1⟩

/- ## LEDPanelAPI WebSocket client (src/src/services/api.ts lines 23-254).
The client's mutable fields are modelled as a state machine; environment
events (socket opening, socket closing, delivery of a socket's close event,
timer firing) follow the browser WebSocket semantics: handlers stay attached
to the socket object that registered them, and `close()` on a non-closed
socket makes that socket's close event fire later. -/

/-- SockState: the readyState of one WebSocket (CLOSING folded into CLOSED);
`opened` stands for OPEN, a reserved word in Lean. -/
inductive SockState where
  | connecting
  | opened
  | closed
  deriving DecidableEq, Repr

/-- Sock: one WebSocket object created by connectWebSocket — the observer
callback its onopen/onmessage/onclose handlers captured (callbacks are
identified by number), its readyState, and whether its close event has been
delivered yet. -/
structure Sock where
  cb : Nat
  state : SockState
  closeFired : Bool
  deriving DecidableEq, Repr

/-- WSClient: the mutable fields of the LEDPanelAPI singleton — `this.ws` as
an index into the list of all sockets ever created (or none), that list,
`this.wsReconnectTimer` as the pending delay in milliseconds together with
the callback the scheduled closure captured (or none), and
`this.statusCallbacks`. -/
structure WSClient where
  ws : Option Nat
  socks : List Sock
  reconnectTimer : Option (Nat × Nat)
  statusCallbacks : List Nat
  deriving DecidableEq, Repr

/-- initWSClient: the field initializers of the LEDPanelAPI class. -/
def initWSClient : WSClient := ⟨none, [], none, []⟩

/-- updateSock: pointwise update of the socket list at one index. -/
def updateSock : List Sock → Nat → (Sock → Sock) → List Sock
  | [], _, _ => []
  | s :: rest, 0, f => f s :: rest
  | s :: rest, n + 1, f => s :: updateSock rest n f

/-- sockIsOpen: the check `this.ws?.readyState === WebSocket.OPEN`. -/
def sockIsOpen (c : WSClient) : Bool :=
  match c.ws with
  | some i =>
    match c.socks.get? i with
    | some s => s.state == SockState.opened
    | none => false
  | none => false

/-- mkSocket: `this.ws = new WebSocket(wsUrl)`, handlers capturing cb. -/
def mkSocket (cb : Nat) (c : WSClient) : WSClient :=
  { c with ws := some c.socks.length,
           socks := c.socks ++ [⟨cb, SockState.connecting, false⟩] }

/-- connectWebSocket (api.ts lines 194-237): pushes the callback onto
statusCallbacks unconditionally, then returns early when the current socket
is already OPEN, otherwise creates a new socket whose handlers capture this
call's callback. -/
def connectWebSocket (cb : Nat) (c : WSClient) : WSClient :=
  let c1 := { c with statusCallbacks := c.statusCallbacks ++ [cb] }
  if sockIsOpen c1 then c1 else mkSocket cb c1

/-- closeSock: `ws.close()` — a no-op on an already-CLOSED socket; otherwise
the socket becomes CLOSED and its close event is still to be delivered. -/
def closeSock (s : Sock) : Sock :=
  match s.state with
  | .closed => s
  | _ => { s with state := SockState.closed }

/-- disconnectWebSocket (api.ts lines 242-254): clears the pending reconnect
timer, calls `close()` on the current socket (its onclose handler stays
attached) and drops the reference, and empties the callback list. -/
def disconnectWebSocket (c : WSClient) : WSClient :=
  let c1 := { c with reconnectTimer := none }
  let c2 :=
    match c1.ws with
    | some i => { c1 with socks := updateSock c1.socks i closeSock, ws := none }
    | none => c1
  { c2 with statusCallbacks := [] }

/-- onSockOpen: socket i finishes connecting and its onopen handler (api.ts
lines 206-212) clears the reconnect timer. -/
def onSockOpen (i : Nat) (c : WSClient) : WSClient :=
  { c with socks := updateSock c.socks i (fun s => { s with state := SockState.opened }),
           reconnectTimer := none }

/-- onSockClose: the close event of socket i is delivered to its onclose
handler (api.ts lines 227-233), which stores in `this.wsReconnectTimer` a
3000 ms timeout whose closure re-invokes connectWebSocket with the callback
this socket captured — the handler runs whether the socket closed
unexpectedly or because disconnectWebSocket called `close()`, since nothing
ever detaches it. -/
def onSockClose (i : Nat) (c : WSClient) : WSClient :=
  match c.socks.get? i with
  | some s =>
    { c with socks := updateSock c.socks i (fun t => { t with closeFired := true }),
             reconnectTimer := some (3000, s.cb) }
  | none => c

/-- timerFire: the scheduled timeout runs — the timer is no longer pending
and connectWebSocket is re-invoked with the captured callback. -/
def timerFire (c : WSClient) : WSClient :=
  match c.reconnectTimer with
  | some (_, cb) => connectWebSocket cb { c with reconnectTimer := none }
  | none => c

/-- WSEvent: one step of the client's event loop — an application call
(connectWebSocket / disconnectWebSocket), an environment transition of one
socket, the delivery of one socket's close event, or the pending reconnect
timer firing. -/
inductive WSEvent where
  | connectWS (cb : Nat)
  | sockOpen (i : Nat)
  | sockRemoteClose (i : Nat)
  | sockCloseEvent (i : Nat)
  | reconnectFire
  | teardown
  deriving DecidableEq, Repr

/-- wsEnabled: which events can occur — a socket opens only from CONNECTING,
closes only while CONNECTING or OPEN, delivers its close event exactly once
after becoming CLOSED; the timer fires only while pending; application calls
are always possible. -/
def wsEnabled (c : WSClient) : WSEvent → Bool
  | .connectWS _ => true
  | .sockOpen i =>
    (match c.socks.get? i with
     | some s => s.state == SockState.connecting
     | none => false)
  | .sockRemoteClose i =>
    (match c.socks.get? i with
     | some s => s.state == SockState.connecting || s.state == SockState.opened
     | none => false)
  | .sockCloseEvent i =>
    (match c.socks.get? i with
     | some s => s.state == SockState.closed && !s.closeFired
     | none => false)
  | .reconnectFire => c.reconnectTimer.isSome
  | .teardown => true

/-- wsStep: the effect of one event. -/
def wsStep (c : WSClient) : WSEvent → WSClient
  | .connectWS cb => connectWebSocket cb c
  | .sockOpen i => onSockOpen i c
  | .sockRemoteClose i =>
    { c with socks := updateSock c.socks i (fun s => { s with state := SockState.closed }) }
  | .sockCloseEvent i => onSockClose i c
  | .reconnectFire => timerFire c
  | .teardown => disconnectWebSocket c

/-- wsExec: apply an event when it is enabled; a disabled event is nothing. -/
def wsExec (c : WSClient) (e : WSEvent) : WSClient :=
  if wsEnabled c e then wsStep c e else c

/-- wsRun: run a whole trace. -/
def wsRun (c : WSClient) (evs : List WSEvent) : WSClient :=
  evs.foldl wsExec c

/-- deliverFrame: the onmessage handler (api.ts lines 214-221) invokes every
entry of `this.statusCallbacks` in order on the received frame; the value is
the list of callback invocations one frame produces. -/
def deliverFrame (c : WSClient) : List Nat :=
  c.statusCallbacks

/-- C7: evaluated on the concrete traces. Positive part: an unexpected close
of the open channel schedules exactly one reopen with the same callback after
the fixed 3000 ms delay, and a teardown issued while that timer is pending
cancels it. Failing part: when teardown is invoked while the channel is open,
`this.ws.close()` leaves the onclose handler attached, so right after
teardown no timer is pending and no socket is referenced, but the closed
socket's close event is still deliverable; its delivery schedules a 3000 ms
reopen with the original callback, and when that timer fires a second socket
is created — a reopen after teardown, contradicting the claim that no reopen
ever occurs after teardown. -/
theorem C7_reopen_after_teardown :
    (wsRun initWSClient [WSEvent.connectWS 0, WSEvent.sockOpen 0,
      WSEvent.sockRemoteClose 0, WSEvent.sockCloseEvent 0]).reconnectTimer = some (3000, 0)
    ∧ (wsRun initWSClient [WSEvent.connectWS 0, WSEvent.sockOpen 0,
        WSEvent.sockRemoteClose 0, WSEvent.sockCloseEvent 0,
        WSEvent.teardown]).reconnectTimer = none
    ∧ (wsRun initWSClient [WSEvent.connectWS 0, WSEvent.sockOpen 0,
        WSEvent.teardown]).reconnectTimer = none
    ∧ (wsRun initWSClient [WSEvent.connectWS 0, WSEvent.sockOpen 0,
        WSEvent.teardown]).ws = none
    ∧ wsEnabled (wsRun initWSClient [WSEvent.connectWS 0, WSEvent.sockOpen 0,
        WSEvent.teardown]) (WSEvent.sockCloseEvent 0) = true
    ∧ (wsRun initWSClient [WSEvent.connectWS 0, WSEvent.sockOpen 0,
        WSEvent.teardown, WSEvent.sockCloseEvent 0]).reconnectTimer = some (3000, 0)
    ∧ (wsRun initWSClient [WSEvent.connectWS 0, WSEvent.sockOpen 0,
        WSEvent.teardown, WSEvent.sockCloseEvent 0,
        WSEvent.reconnectFire]).socks.length = 2 := by
  decide

/- ## C9: callback duplication in connectWebSocket -/

/-- usesOnly: every application-level connectWebSocket call in the trace uses
the callback cb. -/
def usesOnly (cb : Nat) : WSEvent → Bool
  | .connectWS k => k == cb
  | _ => true

/-- noTeardown: the event is not a disconnectWebSocket call. -/
def noTeardown : WSEvent → Bool
  | .teardown => false
  | _ => true

/-- execAdds: how many executions of connectWebSocket one event contributes —
one per application call, one per firing of a pending reconnect timer. -/
def execAdds (c : WSClient) : WSEvent → Nat
  | .connectWS _ => 1
  | .reconnectFire => if wsEnabled c .reconnectFire then 1 else 0
  | _ => 0

/-- connectExecCount: how many times connectWebSocket actually runs along a
trace. -/
def connectExecCount : WSClient → List WSEvent → Nat
  | _, [] => 0
  | c, e :: rest => execAdds c e + connectExecCount (wsExec c e) rest

/-- allCb: every registered status callback, every callback captured by a
socket's handlers, and any callback held by the pending timer is cb. -/
def allCb (cb : Nat) (c : WSClient) : Prop :=
  (∀ x ∈ c.statusCallbacks, x = cb)
  ∧ (∀ s ∈ c.socks, s.cb = cb)
  ∧ (∀ d k, c.reconnectTimer = some (d, k) → k = cb)

theorem updateSock_cb (f : Sock → Sock) (hf : ∀ s, (f s).cb = s.cb) (cb : Nat) :
    ∀ (l : List Sock) (i : Nat), (∀ s ∈ l, s.cb = cb) →
      ∀ s ∈ updateSock l i f, s.cb = cb := by
  intro l
  induction l with
  | nil =>
    intro i _ s hs
    simp [updateSock] at hs
  | cons a rest ih =>
    intro i h s hs
    cases i with
    | zero =>
      simp [updateSock] at hs
      rcases hs with hs | hs
      · rw [hs, hf]
        exact h a (by simp)
      · exact h s (by simp [hs])
    | succ n =>
      simp [updateSock] at hs
      rcases hs with hs | hs
      · rw [hs]
        exact h a (by simp)
      · exact ih n (fun t ht => h t (by simp [ht])) s hs

theorem connectWebSocket_statusCallbacks (cb : Nat) (c : WSClient) :
    (connectWebSocket cb c).statusCallbacks = c.statusCallbacks ++ [cb] := by
  unfold connectWebSocket
  dsimp only
  split <;> rfl

theorem connectWebSocket_allCb (cb : Nat) (c : WSClient) (hc : allCb cb c) :
    allCb cb (connectWebSocket cb c) := by
  obtain ⟨h1, h2, h3⟩ := hc
  have hcb : ∀ x ∈ c.statusCallbacks ++ [cb], x = cb := by
    intro x hx
    rcases List.mem_append.mp hx with hx | hx
    · exact h1 x hx
    · simpa using hx
  unfold connectWebSocket
  dsimp only
  split
  · exact ⟨hcb, h2, h3⟩
  · refine ⟨by simpa [mkSocket] using hcb, ?_, by simpa [mkSocket] using h3⟩
    intro s hs
    simp [mkSocket] at hs
    rcases hs with hs | hs
    · exact h2 s hs
    · simp [hs]

theorem closeSock_cb (s : Sock) : (closeSock s).cb = s.cb := by
  unfold closeSock
  split <;> rfl

theorem onSockOpen_allCb (cb i : Nat) (c : WSClient) (hc : allCb cb c) :
    allCb cb (onSockOpen i c) :=
  ⟨hc.1,
    updateSock_cb (fun s => { s with state := SockState.opened }) (fun _ => rfl)
      cb c.socks i hc.2.1,
    fun _ _ h' => Option.noConfusion h'⟩

theorem remoteClose_allCb (cb i : Nat) (c : WSClient) (hc : allCb cb c) :
    allCb cb { c with
      socks := updateSock c.socks i (fun s => { s with state := SockState.closed }) } :=
  ⟨hc.1,
    updateSock_cb (fun s => { s with state := SockState.closed }) (fun _ => rfl)
      cb c.socks i hc.2.1,
    hc.2.2⟩

theorem onSockClose_allCb (cb i : Nat) (c : WSClient) (hc : allCb cb c) :
    allCb cb (onSockClose i c) := by
  obtain ⟨h1, h2, h3⟩ := hc
  cases hg : c.socks.get? i with
  | none =>
    simp only [onSockClose, hg]
    exact ⟨h1, h2, h3⟩
  | some s =>
    simp only [onSockClose, hg]
    refine ⟨h1,
      updateSock_cb (fun t => { t with closeFired := true }) (fun _ => rfl)
        cb c.socks i h2, ?_⟩
    intro d k hdk
    have h' : (3000, s.cb) = (d, k) := Option.some.inj hdk
    have hk : s.cb = k := congrArg Prod.snd h'
    rw [← hk]
    exact h2 s (List.get?_mem hg)

theorem timerFire_allCb (cb : Nat) (c : WSClient) (hc : allCb cb c) :
    allCb cb (timerFire c) := by
  obtain ⟨h1, h2, h3⟩ := hc
  cases ht : c.reconnectTimer with
  | none =>
    simp only [timerFire, ht]
    exact ⟨h1, h2, h3⟩
  | some p =>
    obtain ⟨d, k⟩ := p
    have hk : k = cb := h3 d k ht
    subst hk
    simp only [timerFire, ht]
    exact connectWebSocket_allCb k _ ⟨h1, h2, fun _ _ h' => Option.noConfusion h'⟩

theorem disconnectWebSocket_allCb (cb : Nat) (c : WSClient) (hc : allCb cb c) :
    allCb cb (disconnectWebSocket c) := by
  obtain ⟨_, h2, _⟩ := hc
  unfold disconnectWebSocket
  dsimp only
  cases hw : c.ws with
  | none =>
    simp only [hw]
    exact ⟨fun x hx => by simp at hx, h2, fun _ _ h' => Option.noConfusion h'⟩
  | some i =>
    simp only [hw]
    exact ⟨fun x hx => by simp at hx,
      updateSock_cb _ closeSock_cb cb c.socks i h2,
      fun _ _ h' => Option.noConfusion h'⟩

theorem wsExec_allCb (cb : Nat) (c : WSClient) (e : WSEvent)
    (hu : usesOnly cb e = true) (hc : allCb cb c) : allCb cb (wsExec c e) := by
  unfold wsExec
  split
  · cases e with
    | connectWS k =>
      have hk : k = cb := by simpa [usesOnly] using hu
      subst hk
      exact connectWebSocket_allCb k c hc
    | sockOpen i => exact onSockOpen_allCb cb i c hc
    | sockRemoteClose i => exact remoteClose_allCb cb i c hc
    | sockCloseEvent i => exact onSockClose_allCb cb i c hc
    | reconnectFire => exact timerFire_allCb cb c hc
    | teardown => exact disconnectWebSocket_allCb cb c hc
  · exact hc

theorem wsExec_callbacks_length (c : WSClient) (e : WSEvent)
    (hn : noTeardown e = true) :
    (wsExec c e).statusCallbacks.length =
      c.statusCallbacks.length + execAdds c e := by
  cases e with
  | connectWS k =>
    simp [wsExec, wsEnabled, wsStep, connectWebSocket_statusCallbacks, execAdds]
  | sockOpen i =>
    unfold wsExec
    split <;> simp [wsStep, onSockOpen, execAdds]
  | sockRemoteClose i =>
    unfold wsExec
    split <;> simp [wsStep, execAdds]
  | sockCloseEvent i =>
    unfold wsExec
    split <;>
      cases hg : c.socks.get? i <;>
        simp only [wsStep, onSockClose, hg, execAdds] <;> simp [execAdds]
  | reconnectFire =>
    unfold wsExec
    split
    case isTrue h =>
      cases ht : c.reconnectTimer with
      | none => simp [wsEnabled, ht] at h
      | some p =>
        obtain ⟨d, k⟩ := p
        simp [wsStep, timerFire, ht, h, connectWebSocket_statusCallbacks, execAdds]
    case isFalse h =>
      simp [execAdds, h]
  | teardown =>
    simp [noTeardown] at hn

theorem wsRun_allCb_length (cb : Nat) (evs : List WSEvent) :
    ∀ c : WSClient, (∀ e ∈ evs, usesOnly cb e = true) →
      (∀ e ∈ evs, noTeardown e = true) → allCb cb c →
      allCb cb (wsRun c evs)
      ∧ (wsRun c evs).statusCallbacks.length =
          c.statusCallbacks.length + connectExecCount c evs := by
  induction evs with
  | nil =>
    intro c _ _ hc
    exact ⟨hc, by simp [wsRun, connectExecCount]⟩
  | cons e rest ih =>
    intro c hu hn hc
    have h1 := wsExec_allCb cb c e (hu e (by simp)) hc
    have h2 := wsExec_callbacks_length c e (hn e (by simp))
    obtain ⟨ha, hb⟩ := ih (wsExec c e) (fun x hx => hu x (by simp [hx]))
      (fun x hx => hn x (by simp [hx])) h1
    have hrun : wsRun c (e :: rest) = wsRun (wsExec c e) rest := by
      simp [wsRun]
    refine ⟨by rw [hrun]; exact ha, ?_⟩
    rw [hrun, hb, h2]
    simp only [connectExecCount]
    omega

/-- C9: connectWebSocket appends its callback to the internal list
unconditionally, before the open-channel check; consequently, along any trace
with no teardown in which every application-level connect call uses the same
callback cb (covering in particular the automatic re-invocations performed by
the reconnect-on-close timer), the registered callback list is exactly n
copies of cb, where n is the number of times connectWebSocket actually ran —
so one received status frame invokes cb exactly n times. -/
theorem C9_callback_fanout (cb : Nat) (evs : List WSEvent)
    (hu : ∀ e ∈ evs, usesOnly cb e = true) (hn : ∀ e ∈ evs, noTeardown e = true) :
    (∀ c : WSClient, (connectWebSocket cb c).statusCallbacks = c.statusCallbacks ++ [cb])
    ∧ deliverFrame (wsRun initWSClient evs) =
        List.replicate (connectExecCount initWSClient evs) cb := by
  refine ⟨fun c => connectWebSocket_statusCallbacks cb c, ?_⟩
  obtain ⟨ha, hb⟩ := wsRun_allCb_length cb evs initWSClient hu hn
    ⟨fun x hx => by simp [initWSClient] at hx,
     fun s hs => by simp [initWSClient] at hs,
     fun _ _ h' => Option.noConfusion h'⟩
  have hlen : (wsRun initWSClient evs).statusCallbacks.length =
      connectExecCount initWSClient evs := by
    simpa [initWSClient] using hb
  have hrep := List.eq_replicate_length.mpr ha.1
  rw [deliverFrame, hrep, hlen]

/-- C9 witness: a trace with one application call of connectWebSocket with
callback 5 and one automatic reconnect re-invocation (n = 2): a frame then
invokes callback 5 exactly twice. -/
theorem C9_callback_fanout_witness :
    (∀ e ∈ [WSEvent.connectWS 5, WSEvent.sockOpen 0, WSEvent.sockRemoteClose 0,
        WSEvent.sockCloseEvent 0, WSEvent.reconnectFire], usesOnly 5 e = true)
    ∧ (∀ e ∈ [WSEvent.connectWS 5, WSEvent.sockOpen 0, WSEvent.sockRemoteClose 0,
        WSEvent.sockCloseEvent 0, WSEvent.reconnectFire], noTeardown e = true)
    ∧ connectExecCount initWSClient [WSEvent.connectWS 5, WSEvent.sockOpen 0,
        WSEvent.sockRemoteClose 0, WSEvent.sockCloseEvent 0, WSEvent.reconnectFire] = 2
    ∧ deliverFrame (wsRun initWSClient [WSEvent.connectWS 5, WSEvent.sockOpen 0,
        WSEvent.sockRemoteClose 0, WSEvent.sockCloseEvent 0,
        WSEvent.reconnectFire]) = [5, 5] := by
  refine ⟨by decide, by decide, by decide, ?_⟩
  have h := (C9_callback_fanout 5 [WSEvent.connectWS 5, WSEvent.sockOpen 0,
    WSEvent.sockRemoteClose 0, WSEvent.sockCloseEvent 0, WSEvent.reconnectFire]
    (by decide) (by decide)).2
  rw [h]
  decide
